import Mathlib

/-!
Shallow embedding of the e-skills store core (cart, pricing resolver,
remote LMS client, checkout/webhook orchestration) from:
  app/utils/edx_api.py, app/models/cart.py, app/routes/payment.py.
Remote HTTP interactions are modelled as explicit outcome values passed
in as arguments; exceptions raised by the HTTP layer or by JSON parsing
are modelled with an inductive outcome constructor or with Except.
-/

namespace EskillsStore

/-! ### Remote responses and course modes -/

/-- A numeric JSON field as consumed by Python float conversion: either a
value that converts to a rational, or one whose conversion raises. -/
inductive JsonNum where
  | num (q : ℚ)
  | malformed
deriving DecidableEq, Repr

/-- One mode entry of a commerce or course-modes payload, as read by the
code via mode.get with defaults: each field may be absent. -/
structure CourseMode where
  name : Option String
  price : Option JsonNum
  currency : Option String
deriving DecidableEq, Repr

/-- Outcome of one remote GET as observed by the caller: the request
raised a transport or parse exception, or returned a status code with a
parsed body. -/
inductive Response (α : Type) where
  | raise
  | status (code : ℕ) (body : α)

/-- Decidable equality for modelled fallible results. -/
instance exceptDecEq {e a : Type} [DecidableEq e] [DecidableEq a] :
    DecidableEq (Except e a) := fun x y =>
  match x, y with
  | .ok v, .ok w => if h : v = w then isTrue (by rw [h]) else isFalse (by simp [h])
  | .error v, .error w =>
      if h : v = w then isTrue (by rw [h]) else isFalse (by simp [h])
  | .ok _, .error _ => isFalse (by simp)
  | .error _, .ok _ => isFalse (by simp)

/-- Python float conversion of mode.get with default 0: absent field
gives 0, a malformed value raises. -/
def floatOfPrice : Option JsonNum → Except Unit ℚ
  | none => .ok 0
  | some (.num q) => .ok q
  | some .malformed => .error ()

/-- Test from the first scan pass: mode.get of name is one of
professional or verified. -/
def isNamedMode (m : CourseMode) : Bool :=
  m.name == some "professional" || m.name == some "verified"

/-- Python str.upper on the underlying character list (the remote
currency codes are ASCII). -/
def strUpper (s : String) : String := ⟨s.data.map Char.toUpper⟩

/-- Currency extraction: mode.get with default USD, then upper-cased. -/
def upperCurrency (m : CourseMode) : String :=
  strUpper (m.currency.getD "USD")

/-! ### Pricing resolver: OpenEdxAPI.get_course_price -/

/-- Result shape returned by get_course_price. -/
structure PriceInfo where
  price : ℚ
  currency : String
  source : String
deriving DecidableEq, Repr

/-- First scan pass of get_course_price: return at the first mode named
professional or verified, converting its price field (conversion of a
malformed field raises). -/
def namedScan (src : String) (modes : List CourseMode) :
    Except Unit (Option PriceInfo) :=
  match modes.find? isNamedMode with
  | none => .ok none
  | some m => do
      let p ← floatOfPrice m.price
      pure (some ⟨p, upperCurrency m, src⟩)

/-- Second scan pass of get_course_price: convert each price field in
order and return at the first strictly positive one. -/
def firstPositive (src : String) : List CourseMode → Except Unit (Option PriceInfo)
  | [] => .ok none
  | m :: rest => do
      let p ← floatOfPrice m.price
      if 0 < p then
        pure (some ⟨p, upperCurrency m, src⟩)
      else
        firstPositive src rest

/-- The two-pass scan applied to one 200 body. -/
def scanModes (src : String) (modes : List CourseMode) :
    Except Unit (Option PriceInfo) := do
  match ← namedScan src modes with
  | some pi => pure (some pi)
  | none => firstPositive src modes

/-- One pricing source inside get_course_price: a raised request
propagates as an exception, a non-200 status contributes nothing, a 200
body is scanned with the two passes. -/
def priceSource (src : String) :
    Response (List CourseMode) → Except Unit (Option PriceInfo)
  | .raise => .error ()
  | .status code modes =>
      if code = 200 then scanModes src modes else .ok none

/-- OpenEdxAPI.get_course_price: commerce endpoint first, then the
course-modes endpoint, then the default zero result; the surrounding
try/except converts any raised exception into the error result. -/
def get_course_price (commerce modesApi : Response (List CourseMode)) :
    PriceInfo :=
  match (do
      match ← priceSource "commerce_api" commerce with
      | some pi => pure pi
      | none =>
        match ← priceSource "course_modes_api" modesApi with
        | some pi => pure pi
        | none => pure ⟨0, "USD", "default"⟩
    : Except Unit PriceInfo) with
  | .ok pi => pi
  | .error _ => ⟨0, "USD", "error"⟩

/-! ### Cart aggregate: app/models/cart.py -/

/-- One cart line as inserted by Cart.add_item. -/
structure CartItem where
  course_id : String
  mode : String
  price : Option ℚ
  currency : String
  course : String
deriving DecidableEq, Repr

/-- A cart is its ordered collection of lines; identifiers live in the
store mapping used by the webhook model. -/
structure Cart where
  items : List CartItem
deriving DecidableEq, Repr

/-- Cart.has_item: whether a line for the course exists. -/
def Cart.has_item (c : Cart) (course_id : String) : Bool :=
  c.items.any (fun it => it.course_id == course_id)

/-- Cart.add_item: insert a line unless one for the course exists. -/
def Cart.add_item (c : Cart) (course_id course : String) (mode : String)
    (price : Option ℚ) (currency : String) : Bool × Cart :=
  if c.has_item course_id then (false, c)
  else (true, ⟨c.items ++ [⟨course_id, mode, price, currency, course⟩]⟩)

/-- Cart.clear: delete every line. -/
def Cart.clear (_ : Cart) : Cart := ⟨[]⟩

/-- Cart.total: sum of line prices, a line with no price contributing
nothing. -/
def Cart.total (c : Cart) : ℚ :=
  (c.items.filterMap (fun it => it.price)).sum

/-! ### Checkout: create_payment_intent from app/routes/payment.py -/

/-- Python int conversion on a rational: truncation toward zero. -/
def pyInt (q : ℚ) : ℤ := if 0 ≤ q then ⌊q⌋ else ⌈q⌉

/-- The payment-processor intent created by create_payment_intent:
minor-unit amount, configured currency, and the metadata map. -/
structure PaymentIntent where
  amount : ℤ
  currency : String
  user_id : ℕ
  cart_id : ℕ
deriving DecidableEq, Repr

/-- create_payment_intent: a missing or empty cart yields the 400
cart-empty error; otherwise the intent amount is int of total times 100. -/
def create_payment_intent (cart : Option Cart) (currency : String)
    (user_id cart_id : ℕ) : Except (ℕ × String) PaymentIntent :=
  match cart with
  | none => .error (400, "Cart is empty")
  | some c =>
    if c.items.isEmpty then .error (400, "Cart is empty")
    else .ok ⟨pyInt (c.total * 100), currency, user_id, cart_id⟩

/-! ### Webhook handler from app/routes/payment.py -/

/-- A user row as needed by the webhook: its username. -/
structure UserRec where
  username : String
deriving DecidableEq, Repr

/-- Metadata of a payment intent inside a webhook event. -/
structure IntentMeta where
  cart_id : ℕ
  user_id : ℕ
deriving DecidableEq, Repr

/-- A parsed webhook event: its type and the intent metadata. -/
structure StripeEvent where
  type : String
  meta : IntentMeta
deriving DecidableEq, Repr

/-- Outcome of stripe.Webhook.construct_event: a verified parsed event, a
ValueError for an unparseable payload, or a signature verification
failure. -/
inductive ConstructEvent where
  | ok (e : StripeEvent)
  | valueError
  | signatureError
deriving DecidableEq, Repr

/-- The HTTP reply of the webhook route. -/
structure HttpResponse where
  status : ℕ
  body : String
deriving DecidableEq, Repr

/-- The webhook route. Inputs: the construct_event outcome, the user and
cart lookups keyed by the metadata identifiers, and the remote outcome of
each enroll call as a function of its arguments. Output: the HTTP reply,
the trace of enroll calls (arguments paired with outcome, in order), and
the cart store after the request. A missing user makes the attribute
access user.username raise inside the loop, which the outer handler turns
into a 500 reply; with no lines the loop body never runs. -/
def webhook (constructed : ConstructEvent)
    (users : ℕ → Option UserRec) (carts : ℕ → Option Cart)
    (enrollOutcome : String → String → String → Bool × String) :
    HttpResponse × List ((String × String × String) × (Bool × String)) ×
      (ℕ → Option Cart) :=
  match constructed with
  | .valueError => (⟨400, "Invalid payload"⟩, [], carts)
  | .signatureError => (⟨400, "Invalid signature"⟩, [], carts)
  | .ok e =>
    if e.type = "payment_intent.succeeded" then
      match carts e.meta.cart_id with
      | none => (⟨404, "Cart not found"⟩, [], carts)
      | some cart =>
        match users e.meta.user_id with
        | some u =>
            let calls := cart.items.map fun it =>
              ((u.username, it.course_id, it.mode),
                enrollOutcome u.username it.course_id it.mode)
            (⟨200, "success"⟩, calls,
              fun i => if i = e.meta.cart_id then some cart.clear else carts i)
        | none =>
            if cart.items.isEmpty then
              (⟨200, "success"⟩, [],
                fun i => if i = e.meta.cart_id then some cart.clear else carts i)
            else (⟨500, "error"⟩, [], carts)
    else (⟨200, "success"⟩, [], carts)

/-! ### Credential cache: OpenEdxAPI access token and CSRF token -/

/-- Python truthiness of the cached string attributes: None and the empty
string are falsy. -/
def pyTruthy : Option String → Bool
  | none => false
  | some s => s != ""

/-- Outcome of the GET of the site root inside the CSRF fetch: a raised
exception, or a response with optional csrftoken cookie and optional
X-CSRFToken header. -/
inductive CsrfFetch where
  | raise
  | resp (cookie : Option String) (header : Option String)
deriving DecidableEq, Repr

/-- OpenEdxAPI get_csrf_token acting on the cached csrf_token attribute.
Returns the new cached value (which is also the returned token) and
whether a remote fetch was performed. A fetch happens whenever the cached
value is falsy; a raised fetch leaves the cache unchanged; otherwise the
cookie is taken first, else the header. -/
def get_csrf_token (csrf_token : Option String) (fetch : CsrfFetch) :
    Option String × Bool :=
  if pyTruthy csrf_token then (csrf_token, false)
  else
    match fetch with
    | .raise => (csrf_token, true)
    | .resp cookie header =>
        (if pyTruthy cookie then cookie else header, true)

/-- Outcome of the POST to the token endpoint: a raised exception, or a
status code with the optional access_token field of the body. -/
inductive TokenFetch where
  | raise
  | resp (code : ℕ) (token : Option String)
deriving DecidableEq, Repr

/-- OpenEdxAPI get_access_token acting on the cached access_token
attribute (initially the empty string). Returns the new cached value, the
returned value, and whether a fetch was performed: a truthy cache is
returned as is; a raised fetch returns None leaving the cache; a 200
stores and returns the token field (None when absent); any other status
leaves and returns the cached value. -/
def get_access_token (access_token : Option String) (fetch : TokenFetch) :
    Option String × Option String × Bool :=
  if pyTruthy access_token then (access_token, access_token, false)
  else
    match fetch with
    | .raise => (access_token, none, true)
    | .resp code token =>
        if code = 200 then (token, token, true)
        else (access_token, access_token, true)

/-! ### Enrollment client: OpenEdxAPI.enroll -/

/-- Body of the enrollment POST response as seen through response.text
and response.json: a parsed JSON object with an optional message field, an
empty text (json raises with the given text when called), or a nonempty
text that fails to parse (json raises with the given text). -/
inductive RespBody where
  | jsonObj (message : Option String)
  | emptyText (exc : String)
  | notJson (exc : String)
deriving DecidableEq, Repr

/-- Outcome of the enrollment POST: a raised transport exception with its
text, or a status code with a body. -/
inductive PostResult where
  | raise (exc : String)
  | resp (code : ℕ) (body : RespBody)
deriving DecidableEq, Repr

/-- The cached credential attributes of one OpenEdxAPI instance. -/
structure ApiState where
  access_token : Option String
  csrf_token : Option String
deriving DecidableEq, Repr

/-- Second component of the enroll result: the parsed payload on success,
an error text on failure. -/
inductive EnrollOut where
  | data (body : RespBody)
  | text (s : String)
deriving DecidableEq, Repr

/-- OpenEdxAPI.enroll. Inputs: the instance state and the remote outcomes
of the token fetch, the CSRF fetch and the enrollment POST. Output: the
(success, payload or message) pair, the state after the call, and how many
token-endpoint fetches were performed. All exceptions are caught and
converted into a false result. -/
def enroll (st : ApiState) (tokenFetch : TokenFetch) (csrfFetch : CsrfFetch)
    (post : PostResult) : (Bool × EnrollOut) × ApiState × ℕ :=
  let tk := get_access_token st.access_token tokenFetch
  let st1 : ApiState := ⟨tk.1, st.csrf_token⟩
  let n : ℕ := if tk.2.2 then 1 else 0
  if ¬ pyTruthy tk.2.1 then ((false, .text "Authentication failed"), st1, n)
  else
    let st2 : ApiState := ⟨st1.access_token,
      (get_csrf_token st1.csrf_token csrfFetch).1⟩
    match post with
    | .raise exc => ((false, .text exc), st2, n)
    | .resp code body =>
        if code = 200 ∨ code = 201 then
          match body with
          | .jsonObj m => ((true, .data (.jsonObj m)), st2, n)
          | .emptyText exc => ((false, .text exc), st2, n)
          | .notJson exc => ((false, .text exc), st2, n)
        else
          match body with
          | .jsonObj m => ((false, .text (m.getD "Unknown error occurred")), st2, n)
          | .emptyText _ => ((false, .text "Unknown error occurred"), st2, n)
          | .notJson exc => ((false, .text exc), st2, n)

/-! ### Course listing: OpenEdxAPI.get_courses -/

/-- A catalog course record as far as the listing code touches it: the id
field and the price, currency and source keys written by the pricing
merge; an Option none models an absent key. -/
structure CourseRec where
  id : Option String
  price : Option ℚ
  currency : Option String
  source : Option String
deriving DecidableEq, Repr

/-- The course.update call of the pricing merge. -/
def updateCoursePrice (c : CourseRec) (p : ℚ) (cur src : String) : CourseRec :=
  { c with price := some p, currency := some cur, source := some src }

/-- First scan pass inside get_courses: update the course from the first
mode named professional or verified and stop. -/
def scanNamedUpdate (src : String) (modes : List CourseMode) (c : CourseRec) :
    Except Unit CourseRec :=
  match modes.find? isNamedMode with
  | none => .ok c
  | some m => do
      let p ← floatOfPrice m.price
      pure (updateCoursePrice c p (upperCurrency m) src)

/-- Second scan pass inside get_courses: update the course from the first
mode with positive price. -/
def scanPositiveUpdate (src : String) (c : CourseRec) :
    List CourseMode → Except Unit CourseRec
  | [] => .ok c
  | m :: rest => do
      let p ← floatOfPrice m.price
      if 0 < p then pure (updateCoursePrice c p (upperCurrency m) src)
      else scanPositiveUpdate src c rest

/-- Per-course pricing merge inside the get_courses loop: the guard is a
Python truthiness test of course.get of id, so a record with a missing id
or an empty-string id is skipped; otherwise the commerce response is
scanned on 200 (second pass only when no price key was written), then the
course-modes response the same way when the price key is still absent. A
raised pricing request propagates as an exception out of the loop. -/
def priceCourse (commerceOf modesOf : String → Response (List CourseMode))
    (c : CourseRec) : Except Unit CourseRec :=
  match c.id with
  | none => .ok c
  | some cid =>
    if cid = "" then .ok c
    else do
      let c1 ←
        match commerceOf cid with
        | .raise => Except.error ()
        | .status code modes =>
            if code = 200 then do
              let ca ← scanNamedUpdate "commerce_api" modes c
              if ca.price.isNone then scanPositiveUpdate "commerce_api" ca modes
              else pure ca
            else pure c
      if c1.price.isNone then
        match modesOf cid with
        | .raise => Except.error ()
        | .status code modes =>
            if code = 200 then do
              let cb ← scanNamedUpdate "course_modes_api" modes c1
              if cb.price.isNone then scanPositiveUpdate "course_modes_api" cb modes
              else pure cb
            else pure c1
      else pure c1

/-- Pagination block of the get_courses result. -/
structure Pagination where
  page : ℕ
  page_size : ℕ
  total : ℕ
deriving DecidableEq, Repr

/-- Parsed body of the catalog listing response. -/
structure CatalogData where
  results : List CourseRec
  count : ℕ
deriving DecidableEq, Repr

/-- The get_courses return value on success. -/
structure CoursesResult where
  results : List CourseRec
  pagination : Pagination
deriving DecidableEq, Repr

/-- OpenEdxAPI.get_courses: on a 200 from the catalog endpoint every
returned record goes through the per-course pricing merge; the
surrounding try/except converts any exception raised inside the loop into
a None result, and a non-200 or raised catalog call also yields None. -/
def get_courses (catalog : Response CatalogData)
    (commerceOf modesOf : String → Response (List CourseMode))
    (page page_size : ℕ) : Option CoursesResult :=
  match catalog with
  | .raise => none
  | .status code data =>
      if code = 200 then
        match data.results.mapM (priceCourse commerceOf modesOf) with
        | .ok courses => some ⟨courses, ⟨page, page_size, data.count⟩⟩
        | .error _ => none
      else none

/-! ### Predicates used in the theorem statements -/

/-- A mode whose price field converts cleanly to a non-positive value. -/
def modeNonPositiveClean (m : CourseMode) : Bool :=
  match floatOfPrice m.price with
  | .ok q => decide (q ≤ 0)
  | .error _ => false

/-- A pricing response that completes without raising and without
offering any usable price: either a non-200 status, or a 200 whose modes
contain no professional or verified entry and no positive price. -/
def noUsablePrice : Response (List CourseMode) → Bool
  | .raise => false
  | .status code modes =>
      if code = 200 then
        modes.all (fun m => !(isNamedMode m)) && modes.all modeNonPositiveClean
      else true

/-- A pricing response that is a plain non-200 status. -/
def isNon200 : Response (List CourseMode) → Bool
  | .raise => false
  | .status code _ => code != 200

/-! ## Helper lemmas about the pricing scans -/

theorem except_bind_ok {α β ε : Type} (a : α) (f : α → Except ε β) :
    (Except.ok a : Except ε α) >>= f = f a := rfl

theorem except_bind_error {α β ε : Type} (e : ε) (f : α → Except ε β) :
    (Except.error e : Except ε α) >>= f = Except.error e := rfl

theorem except_pure {α ε : Type} (a : α) :
    (pure a : Except ε α) = Except.ok a := rfl

theorem priceSource_raise (src : String) :
    priceSource src Response.raise = .error () := rfl

theorem namedScan_eq_none (src : String) (modes : List CourseMode)
    (h : modes.all (fun m => !(isNamedMode m)) = true) :
    namedScan src modes = .ok none := by
  have hfind : modes.find? isNamedMode = none := by
    rw [List.find?_eq_none]
    intro x hx
    have hx2 := List.all_eq_true.mp h x hx
    simp only [Bool.not_eq_true'] at hx2
    simp [hx2]
  simp [namedScan, hfind]

theorem firstPositive_eq_none (src : String) (modes : List CourseMode)
    (h : modes.all modeNonPositiveClean = true) :
    firstPositive src modes = .ok none := by
  induction modes with
  | nil => rfl
  | cons m rest ih =>
      rw [List.all_cons, Bool.and_eq_true] at h
      obtain ⟨hm, hrest⟩ := h
      unfold modeNonPositiveClean at hm
      cases hq : floatOfPrice m.price with
      | error e => rw [hq] at hm; simp at hm
      | ok q =>
          rw [hq] at hm
          have hle : q ≤ 0 := by simpa using hm
          have hnot : ¬ (0 < q) := not_lt.mpr hle
          simp [firstPositive, hq, hnot, ih hrest, except_bind_ok]

theorem priceSource_eq_none (src : String) (r : Response (List CourseMode))
    (h : noUsablePrice r = true) : priceSource src r = .ok none := by
  cases r with
  | raise => simp [noUsablePrice] at h
  | status code modes =>
      by_cases hc : code = 200
      · subst hc
        simp only [noUsablePrice, if_true, eq_self_iff_true, Bool.and_eq_true] at h
        obtain ⟨ha, hb⟩ := h
        simp [priceSource, scanModes, namedScan_eq_none src modes ha,
          firstPositive_eq_none src modes hb, except_bind_ok]
      · simp [priceSource, hc]

/-! ## Claim theorems -/

/-- Claim C2 (amended): get_course_price never raises. When both pricing
responses complete without raising and neither contains a professional or
verified entry nor a positive price, the result is the zero USD default;
when the commerce call raises, or the commerce stage yields nothing and
the course-modes call raises, the result is the zero USD error value. -/
theorem C2_resolve_price_default_and_error
    (commerce modesApi : Response (List CourseMode))
    (h1 : noUsablePrice commerce = true)
    (h2 : noUsablePrice modesApi = true) :
    get_course_price commerce modesApi = ⟨0, "USD", "default"⟩
    ∧ (∀ md, get_course_price .raise md = ⟨0, "USD", "error"⟩)
    ∧ get_course_price commerce .raise = ⟨0, "USD", "error"⟩ := by
  refine ⟨?_, ?_, ?_⟩
  · simp [get_course_price, priceSource_eq_none _ _ h1,
      priceSource_eq_none _ _ h2, except_bind_ok, except_pure]
  · intro md
    simp [get_course_price, priceSource, except_bind_error]
  · simp [get_course_price, priceSource_eq_none _ _ h1, priceSource_raise,
      except_bind_ok, except_bind_error, except_pure]

theorem C2_witness :
    noUsablePrice (Response.status 200 [⟨none, some (.num 0), none⟩]) = true
    ∧ noUsablePrice (Response.status 404 ([] : List CourseMode)) = true
    ∧ get_course_price (.status 200 [⟨none, some (.num 0), none⟩]) (.status 404 [])
        = ⟨0, "USD", "default"⟩
    ∧ get_course_price .raise (.status 200 []) = ⟨0, "USD", "error"⟩
    ∧ get_course_price (.status 200 [⟨none, some (.num 0), none⟩]) .raise
        = ⟨0, "USD", "error"⟩ :=
  ⟨by decide, by decide,
   (C2_resolve_price_default_and_error _ _ (by decide) (by decide)).1,
   (C2_resolve_price_default_and_error (.status 200 [⟨none, some (.num 0), none⟩])
      (.status 404 []) (by decide) (by decide)).2.1 _,
   (C2_resolve_price_default_and_error _ (.status 404 []) (by decide) (by decide)).2.2⟩

/-- Claim C2 counterexample: a commerce response whose only mode is named
verified with price 0 contains no positive price in either source, yet
get_course_price returns source commerce_api with the upper-cased mode
currency, not the zero USD default the claim demands. -/
theorem C2_counterexample_named_zero_mode :
    ([⟨some "verified", some (.num 0), some "eur"⟩] : List CourseMode).all
        modeNonPositiveClean = true
    ∧ get_course_price (.status 200 [⟨some "verified", some (.num 0), some "eur"⟩])
        (.status 200 []) = ⟨0, "EUR", "commerce_api"⟩
    ∧ get_course_price (.status 200 [⟨some "verified", some (.num 0), some "eur"⟩])
        (.status 200 []) ≠ ⟨0, "USD", "default"⟩ := by decide

/-- Claim C5 (amended): when the first professional or verified entry in
the commerce modes list, in scan order, has a price converting to p with
p positive, get_course_price returns exactly p with that entry currency
upper-cased and source commerce_api, regardless of the other modes and of
the course-modes response. -/
theorem C5_commerce_named_mode_price
    (ms : List CourseMode) (m : CourseMode) (p : ℚ)
    (hfind : ms.find? isNamedMode = some m)
    (hp : floatOfPrice m.price = .ok p) (_hpos : 0 < p)
    (md : Response (List CourseMode)) :
    get_course_price (.status 200 ms) md = ⟨p, upperCurrency m, "commerce_api"⟩ := by
  simp [get_course_price, priceSource, scanModes, namedScan, hfind, hp,
    except_bind_ok, except_pure]

theorem C5_witness :
    ([⟨none, some (.num 5), none⟩, ⟨some "verified", some (.num 49), some "eur"⟩]
        : List CourseMode).find? isNamedMode
      = some ⟨some "verified", some (.num 49), some "eur"⟩
    ∧ (0 : ℚ) < 49
    ∧ get_course_price
        (.status 200 [⟨none, some (.num 5), none⟩,
                      ⟨some "verified", some (.num 49), some "eur"⟩])
        (.status 404 [])
        = ⟨49, upperCurrency ⟨some "verified", some (.num 49), some "eur"⟩,
            "commerce_api"⟩ :=
  ⟨by decide, by decide,
   C5_commerce_named_mode_price
     [⟨none, some (.num 5), none⟩, ⟨some "verified", some (.num 49), some "eur"⟩]
     ⟨some "verified", some (.num 49), some "eur"⟩ 49
     (by decide) rfl (by decide) (.status 404 [])⟩

/-- Claim C5 counterexample: the commerce response contains a professional
entry with price 100 and currency eur, but an earlier verified entry with
price 0 wins the scan, so the result is not that entry price and currency
as the claim states for every such entry. -/
theorem C5_counterexample_earlier_named_zero :
    get_course_price
      (.status 200 [⟨some "verified", some (.num 0), none⟩,
                    ⟨some "professional", some (.num 100), some "eur"⟩])
      (.status 200 []) = ⟨0, "USD", "commerce_api"⟩
    ∧ get_course_price
      (.status 200 [⟨some "verified", some (.num 0), none⟩,
                    ⟨some "professional", some (.num 100), some "eur"⟩])
      (.status 200 []) ≠ ⟨100, "EUR", "commerce_api"⟩ := by decide

/-- Claim C10: the first scan pass of get_course_price selects the first
professional or verified entry without any price check: when that entry
price field converts to 0 (in particular when it is absent) the result is
price 0 with that entry currency upper-cased and source commerce_api, for
every tail of the list (so even when a later mode has a positive price)
and whatever the course-modes response would have said. -/
theorem C10_first_pass_ignores_price
    (ms : List CourseMode) (m : CourseMode)
    (hfind : ms.find? isNamedMode = some m)
    (h0 : floatOfPrice m.price = .ok 0)
    (md : Response (List CourseMode)) :
    get_course_price (.status 200 ms) md = ⟨0, upperCurrency m, "commerce_api"⟩ := by
  simp [get_course_price, priceSource, scanModes, namedScan, hfind, h0,
    except_bind_ok, except_pure]

theorem C10_witness :
    ([⟨some "verified", none, some "eur"⟩, ⟨none, some (.num 50), none⟩]
        : List CourseMode).find? isNamedMode
      = some ⟨some "verified", none, some "eur"⟩
    ∧ floatOfPrice (none : Option JsonNum) = .ok 0
    ∧ get_course_price
        (.status 200 [⟨some "verified", none, some "eur"⟩,
                      ⟨none, some (.num 50), none⟩])
        (.status 200 [⟨none, some (.num 99), none⟩])
        = ⟨0, upperCurrency ⟨some "verified", none, some "eur"⟩, "commerce_api"⟩ :=
  ⟨by decide, rfl,
   C10_first_pass_ignores_price
     [⟨some "verified", none, some "eur"⟩, ⟨none, some (.num 50), none⟩]
     ⟨some "verified", none, some "eur"⟩
     (by decide) rfl (.status 200 [⟨none, some (.num 99), none⟩])⟩

/-- Claim C7: Cart.add_item called twice with the same course on a cart
not yet containing it returns true then false, the resulting cart has
exactly one line for that course, and the total after the second call
equals the total after the first (the second call is a no-op). -/
theorem C7_add_item_twice
    (c : Cart) (course_id course mode : String) (price : Option ℚ)
    (currency : String) (h : c.has_item course_id = false) :
    (c.add_item course_id course mode price currency).1 = true
    ∧ ((c.add_item course_id course mode price currency).2.add_item
        course_id course mode price currency).1 = false
    ∧ (((c.add_item course_id course mode price currency).2.add_item
        course_id course mode price currency).2.items.filter
          (fun it => it.course_id == course_id)).length = 1
    ∧ ((c.add_item course_id course mode price currency).2.add_item
        course_id course mode price currency).2.total
      = (c.add_item course_id course mode price currency).2.total := by
  have h1 : c.add_item course_id course mode price currency
      = (true, ⟨c.items ++ [⟨course_id, mode, price, currency, course⟩]⟩) := by
    simp [Cart.add_item, h]
  have h2 : Cart.has_item ⟨c.items ++ [⟨course_id, mode, price, currency, course⟩]⟩
      course_id = true := by
    simp [Cart.has_item]
  have h3 : Cart.add_item ⟨c.items ++ [⟨course_id, mode, price, currency, course⟩]⟩
      course_id course mode price currency
      = (false, ⟨c.items ++ [⟨course_id, mode, price, currency, course⟩]⟩) := by
    simp [Cart.add_item, h2]
  have hfil : c.items.filter (fun it => it.course_id == course_id) = [] := by
    rw [List.filter_eq_nil_iff]
    intro a ha hcontra
    have hany : c.items.any (fun it => it.course_id == course_id) = true :=
      List.any_eq_true.mpr ⟨a, ha, hcontra⟩
    rw [Cart.has_item] at h
    rw [hany] at h
    exact Bool.true_eq_false.mp h
  rw [h1, h3]
  refine ⟨rfl, rfl, ?_, rfl⟩
  simp [List.filter_append, hfil]

theorem C7_witness :
    Cart.has_item ⟨[]⟩ "course-v1:a" = false
    ∧ ((Cart.mk []).add_item "course-v1:a" "crs" "verified" (some 10) "USD").1 = true
    ∧ (((Cart.mk []).add_item "course-v1:a" "crs" "verified" (some 10) "USD").2.add_item
        "course-v1:a" "crs" "verified" (some 10) "USD").1 = false
    ∧ ((((Cart.mk []).add_item "course-v1:a" "crs" "verified" (some 10) "USD").2.add_item
        "course-v1:a" "crs" "verified" (some 10) "USD").2.items.filter
          (fun it => it.course_id == "course-v1:a")).length = 1
    ∧ (((Cart.mk []).add_item "course-v1:a" "crs" "verified" (some 10) "USD").2.add_item
        "course-v1:a" "crs" "verified" (some 10) "USD").2.total
      = ((Cart.mk []).add_item "course-v1:a" "crs" "verified" (some 10) "USD").2.total := by
  have hmain := C7_add_item_twice ⟨[]⟩ "course-v1:a" "crs" "verified" (some 10) "USD" rfl
  exact ⟨rfl, hmain.1, hmain.2.1, hmain.2.2.1, hmain.2.2.2⟩

/-- Claim C6 (amended): create_payment_intent fails with the 400
cart-empty error when the cart is missing or has no lines; otherwise it
creates an intent whose minor-unit amount is the Python int truncation of
total times 100 toward zero, which can differ from round of total times
100, as the counterexample shows. -/
theorem C6_payment_intent_amount
    (cart : Cart) (currency : String) (user_id cart_id : ℕ)
    (h : cart.items ≠ []) :
    create_payment_intent (some cart) currency user_id cart_id
      = .ok ⟨pyInt (cart.total * 100), currency, user_id, cart_id⟩
    ∧ create_payment_intent none currency user_id cart_id
      = .error (400, "Cart is empty")
    ∧ create_payment_intent (some ⟨[]⟩) currency user_id cart_id
      = .error (400, "Cart is empty") := by
  refine ⟨?_, rfl, rfl⟩
  have hne : cart.items.isEmpty = false := by
    cases hi : cart.items with
    | nil => exact absurd hi h
    | cons a l => rfl
  simp [create_payment_intent, hne]

theorem C6_witness :
    ([⟨"course-v1:a", "verified", some 50, "USD", "crs"⟩] : List CartItem) ≠ []
    ∧ create_payment_intent
        (some ⟨[⟨"course-v1:a", "verified", some 50, "USD", "crs"⟩]⟩) "usd" 1 2
      = .ok ⟨pyInt ((Cart.mk [⟨"course-v1:a", "verified", some 50, "USD", "crs"⟩]).total * 100),
          "usd", 1, 2⟩
    ∧ create_payment_intent none "usd" 1 2 = .error (400, "Cart is empty")
    ∧ create_payment_intent (some ⟨[]⟩) "usd" 1 2 = .error (400, "Cart is empty") := by
  have hmain := C6_payment_intent_amount
    ⟨[⟨"course-v1:a", "verified", some 50, "USD", "crs"⟩]⟩ "usd" 1 2 (by simp)
  exact ⟨by simp, hmain.1, hmain.2.1, hmain.2.2⟩

/-- Claim C6 counterexample: for a one-line cart with price 10.995 the
created intent amount is the truncation 1099 while round of total times
100 is 1100, so the amount does not equal the rounded value the claim
demands. -/
theorem C6_counterexample_truncation :
    create_payment_intent
      (some ⟨[⟨"course-v1:a", "verified", some (10995 / 1000 : ℚ), "USD", "crs"⟩]⟩)
      "usd" 1 2
      = .ok ⟨1099, "usd", 1, 2⟩
    ∧ round ((Cart.mk [⟨"course-v1:a", "verified", some (10995 / 1000 : ℚ), "USD",
        "crs"⟩]).total * 100) = (1100 : ℤ)
    ∧ (1099 : ℤ) ≠ 1100 := by
  refine ⟨?_, ?_, by decide⟩
  · have h0 : (0:ℚ) ≤ 10995 / 1000 * 100 := by norm_num
    simp [create_payment_intent, Cart.total, pyInt, h0]
    norm_num
  · simp only [Cart.total, List.filterMap_cons, List.filterMap_nil, List.sum_cons,
      List.sum_nil, add_zero]
    norm_num [round_eq]

/-- Claim C1: on a signature-verified payment-intent-succeeded event whose
metadata resolves to an existing cart and user, the webhook performs one
enroll call per cart line, in order, with that line user, course and mode
arguments, returns 200, and afterwards the cart in the store has zero
lines, for every possible combination of per-line enroll outcomes. -/
theorem C1_webhook_settlement
    (e : StripeEvent) (users : ℕ → Option UserRec) (carts : ℕ → Option Cart)
    (enrollOutcome : String → String → String → Bool × String)
    (u : UserRec) (cart : Cart)
    (htype : e.type = "payment_intent.succeeded")
    (hcart : carts e.meta.cart_id = some cart)
    (huser : users e.meta.user_id = some u) :
    (webhook (.ok e) users carts enrollOutcome).2.1.map Prod.fst
        = cart.items.map (fun it => (u.username, it.course_id, it.mode))
    ∧ (webhook (.ok e) users carts enrollOutcome).2.1.length = cart.items.length
    ∧ ((webhook (.ok e) users carts enrollOutcome).2.2 e.meta.cart_id).map Cart.items
        = some []
    ∧ (webhook (.ok e) users carts enrollOutcome).1 = ⟨200, "success"⟩ := by
  simp [webhook, htype, hcart, huser, Cart.clear]

theorem C1_witness :
    (StripeEvent.mk "payment_intent.succeeded" ⟨7, 3⟩).type = "payment_intent.succeeded"
    ∧ (fun _ : ℕ => some (Cart.mk
        [⟨"course-v1:a", "verified", some 10, "USD", "x"⟩,
         ⟨"course-v1:b", "audit", none, "USD", "y"⟩])) 7
      = some (Cart.mk
        [⟨"course-v1:a", "verified", some 10, "USD", "x"⟩,
         ⟨"course-v1:b", "audit", none, "USD", "y"⟩])
    ∧ (fun _ : ℕ => some (UserRec.mk "alice")) 3 = some (UserRec.mk "alice")
    ∧ (webhook (.ok ⟨"payment_intent.succeeded", ⟨7, 3⟩⟩)
        (fun _ => some ⟨"alice"⟩)
        (fun _ => some ⟨[⟨"course-v1:a", "verified", some 10, "USD", "x"⟩,
                         ⟨"course-v1:b", "audit", none, "USD", "y"⟩]⟩)
        (fun _ _ _ => (false, "enrollment failed"))).2.1.map Prod.fst
      = (Cart.mk [⟨"course-v1:a", "verified", some 10, "USD", "x"⟩,
                  ⟨"course-v1:b", "audit", none, "USD", "y"⟩]).items.map
          (fun it => ((UserRec.mk "alice").username, it.course_id, it.mode))
    ∧ (webhook (.ok ⟨"payment_intent.succeeded", ⟨7, 3⟩⟩)
        (fun _ => some ⟨"alice"⟩)
        (fun _ => some ⟨[⟨"course-v1:a", "verified", some 10, "USD", "x"⟩,
                         ⟨"course-v1:b", "audit", none, "USD", "y"⟩]⟩)
        (fun _ _ _ => (false, "enrollment failed"))).2.1.length = 2
    ∧ ((webhook (.ok ⟨"payment_intent.succeeded", ⟨7, 3⟩⟩)
        (fun _ => some ⟨"alice"⟩)
        (fun _ => some ⟨[⟨"course-v1:a", "verified", some 10, "USD", "x"⟩,
                         ⟨"course-v1:b", "audit", none, "USD", "y"⟩]⟩)
        (fun _ _ _ => (false, "enrollment failed"))).2.2 7).map Cart.items
      = some [] := by
  have hmain := C1_webhook_settlement ⟨"payment_intent.succeeded", ⟨7, 3⟩⟩
    (fun _ => some ⟨"alice"⟩)
    (fun _ => some ⟨[⟨"course-v1:a", "verified", some 10, "USD", "x"⟩,
                     ⟨"course-v1:b", "audit", none, "USD", "y"⟩]⟩)
    (fun _ _ _ => (false, "enrollment failed"))
    ⟨"alice"⟩
    ⟨[⟨"course-v1:a", "verified", some 10, "USD", "x"⟩,
      ⟨"course-v1:b", "audit", none, "USD", "y"⟩]⟩
    rfl rfl rfl
  exact ⟨rfl, rfl, rfl, hmain.1, hmain.2.1, hmain.2.2.1⟩

/-- Claim C3: when signature verification fails or the payload is
unparseable, the webhook replies with status 400, performs no enroll call,
and leaves the cart store exactly as it was. -/
theorem C3_webhook_rejects_invalid
    (c : ConstructEvent) (users : ℕ → Option UserRec) (carts : ℕ → Option Cart)
    (enrollOutcome : String → String → String → Bool × String)
    (h : c = ConstructEvent.signatureError ∨ c = ConstructEvent.valueError) :
    (webhook c users carts enrollOutcome).1.status = 400
    ∧ (webhook c users carts enrollOutcome).2.1 = []
    ∧ (webhook c users carts enrollOutcome).2.2 = carts := by
  rcases h with h | h <;> subst h <;> exact ⟨rfl, rfl, rfl⟩

theorem C3_witness :
    (webhook ConstructEvent.signatureError
        (fun _ => some ⟨"alice"⟩)
        (fun _ => some ⟨[⟨"course-v1:a", "verified", some 10, "USD", "x"⟩]⟩)
        (fun _ _ _ => (true, "enrolled"))).1.status = 400
    ∧ (webhook ConstructEvent.signatureError
        (fun _ => some ⟨"alice"⟩)
        (fun _ => some ⟨[⟨"course-v1:a", "verified", some 10, "USD", "x"⟩]⟩)
        (fun _ _ _ => (true, "enrolled"))).2.1 = []
    ∧ (webhook ConstructEvent.signatureError
        (fun _ => some ⟨"alice"⟩)
        (fun _ => some ⟨[⟨"course-v1:a", "verified", some 10, "USD", "x"⟩]⟩)
        (fun _ _ _ => (true, "enrolled"))).2.2
      = (fun _ => some ⟨[⟨"course-v1:a", "verified", some 10, "USD", "x"⟩]⟩) :=
  C3_webhook_rejects_invalid ConstructEvent.signatureError
    (fun _ => some ⟨"alice"⟩)
    (fun _ => some ⟨[⟨"course-v1:a", "verified", some 10, "USD", "x"⟩]⟩)
    (fun _ _ _ => (true, "enrolled"))
    (Or.inl rfl)

/-- Claim C8 (amended): get_csrf_token fetches whenever the cached token
is falsy: a call holding a truthy cached token returns it without
fetching, but when the first call found no token the empty outcome is not
cached and the next call performs a remote fetch again. -/
theorem C8_csrf_cache_policy
    (tok : String) (htok : tok ≠ "") (f g : CsrfFetch) :
    get_csrf_token (some tok) f = (some tok, false)
    ∧ (get_csrf_token (get_csrf_token none (.resp none none)).1 g).2 = true := by
  constructor
  · simp [get_csrf_token, pyTruthy, htok]
  · cases g <;> simp [get_csrf_token, pyTruthy]

theorem C8_witness :
    ("token-a" : String) ≠ ""
    ∧ get_csrf_token (some "token-a") (.resp none none) = (some "token-a", false)
    ∧ (get_csrf_token (get_csrf_token none (.resp none none)).1
        CsrfFetch.raise).2 = true := by
  have hmain := C8_csrf_cache_policy "token-a" (by decide) (.resp none none)
    CsrfFetch.raise
  exact ⟨by decide, hmain.1, hmain.2⟩

/-- Claim C8 counterexample: a first call that finds no token fetches and
caches nothing, and the second call performs a remote fetch again,
contradicting the claim that the none-found outcome is cached for the
lifetime of the instance with no re-fetching. -/
theorem C8_counterexample_refetch_after_none :
    get_csrf_token none (.resp none none) = (none, true)
    ∧ (get_csrf_token (get_csrf_token none (.resp none none)).1
        (.resp none none)).2 = true := by decide

/-- Claim C9 (amended): the client performs no 401-specific handling: with
a truthy cached bearer token, an enrollment POST answered 401 yields a
false result, the cached token is left in place (not invalidated) and no
token-endpoint fetch at all is performed, for every token fetch outcome,
CSRF fetch outcome and response body. -/
theorem C9_no_401_refresh
    (t : String) (ht : t ≠ "") (csrf : Option String)
    (tokenFetch : TokenFetch) (csrfFetch : CsrfFetch) (body : RespBody) :
    (enroll ⟨some t, csrf⟩ tokenFetch csrfFetch (.resp 401 body)).1.1 = false
    ∧ (enroll ⟨some t, csrf⟩ tokenFetch csrfFetch (.resp 401 body)).2.1.access_token
      = some t
    ∧ (enroll ⟨some t, csrf⟩ tokenFetch csrfFetch (.resp 401 body)).2.2 = 0 := by
  have htr : pyTruthy (some t) = true := by simp [pyTruthy, ht]
  cases body <;> simp [enroll, get_access_token, htr]

theorem C9_witness :
    ("tok" : String) ≠ ""
    ∧ (enroll ⟨some "tok", none⟩ .raise (.resp none none)
        (.resp 401 (.jsonObj (some "auth required")))).1.1 = false
    ∧ (enroll ⟨some "tok", none⟩ .raise (.resp none none)
        (.resp 401 (.jsonObj (some "auth required")))).2.1.access_token = some "tok"
    ∧ (enroll ⟨some "tok", none⟩ .raise (.resp none none)
        (.resp 401 (.jsonObj (some "auth required")))).2.2 = 0 := by
  have hmain := C9_no_401_refresh "tok" (by decide) none .raise (.resp none none)
    (.jsonObj (some "auth required"))
  exact ⟨by decide, hmain.1, hmain.2.1, hmain.2.2⟩

/-- Claim C9 counterexample: with a cached bearer token, a 401 from the
enrollment endpoint leaves the cached credentials untouched, performs
zero token-endpoint fetches, and returns a false result with the error
message, contradicting the claimed invalidate-and-refetch-once policy. -/
theorem C9_counterexample_401_ignored :
    enroll ⟨some "tok", none⟩ .raise (.resp none none) (.resp 401 (.jsonObj none))
      = ((false, .text "Unknown error occurred"), ⟨some "tok", none⟩, 0) := by decide

/-! ## Helper lemmas for the course listing -/

theorem priceCourse_skips_on_non200
    (commerceOf modesOf : String → Response (List CourseMode)) (c : CourseRec)
    (hc : ∀ x, c.id = some x → x ≠ "" →
      isNon200 (commerceOf x) = true ∧ isNon200 (modesOf x) = true) :
    priceCourse commerceOf modesOf c = .ok c := by
  unfold priceCourse
  cases hid : c.id with
  | none => rfl
  | some cid =>
      by_cases h0 : cid = ""
      · simp [h0]
      · obtain ⟨hcm, hmd⟩ := hc cid hid h0
        cases hr : commerceOf cid with
        | raise =>
            rw [hr] at hcm
            simp [isNon200] at hcm
        | status code modes =>
            have hcode : ¬ (code = 200) := by
              rw [hr] at hcm
              simpa [isNon200] using hcm
            cases hm : modesOf cid with
            | raise =>
                rw [hm] at hmd
                simp [isNon200] at hmd
            | status code2 modes2 =>
                have hcode2 : ¬ (code2 = 200) := by
                  rw [hm] at hmd
                  simpa [isNon200] using hmd
                by_cases hp : c.price = none
                · simp [h0, hr, hm, hcode, hcode2, hp, except_bind_ok, except_pure]
                · simp [h0, hr, hm, hcode, hp, except_bind_ok, except_pure]

theorem priceCourse_error_of_commerce_raise
    (commerceOf modesOf : String → Response (List CourseMode)) (c : CourseRec)
    (cid : String) (hid : c.id = some cid) (h0 : cid ≠ "")
    (hr : commerceOf cid = .raise) :
    priceCourse commerceOf modesOf c = .error () := by
  unfold priceCourse
  rw [hid]
  simp [h0, hr, except_bind_error]

theorem get_courses_ok (data : CatalogData)
    (commerceOf modesOf : String → Response (List CourseMode))
    (page page_size : ℕ) :
    get_courses (.status 200 data) commerceOf modesOf page page_size
      = match data.results.mapM (priceCourse commerceOf modesOf) with
        | .ok courses => some ⟨courses, ⟨page, page_size, data.count⟩⟩
        | .error _ => none := rfl

/-- Claim C4 (amended): after a 200 from the catalog endpoint, a course
whose pricing lookups merely return non-200 statuses does not fail the
listing: the courses around it are priced as usual and the affected
course is returned, in place, with its price field unchanged (absent when
the catalog supplied none, not set to 0 USD). A pricing call that raises,
however, fails the whole listing: get_courses returns none, whatever
courses follow the raising one. -/
theorem C4_listing_pricing_failures
    (count page page_size : ℕ)
    (commerceOf modesOf : String → Response (List CourseMode))
    (pre post dpre dpost : List CourseRec) (c : CourseRec)
    (hpre : pre.mapM (priceCourse commerceOf modesOf) = .ok dpre)
    (hpost : post.mapM (priceCourse commerceOf modesOf) = .ok dpost)
    (hc : ∀ x, c.id = some x → x ≠ "" →
      isNon200 (commerceOf x) = true ∧ isNon200 (modesOf x) = true) :
    get_courses (.status 200 ⟨pre ++ c :: post, count⟩) commerceOf modesOf
        page page_size
      = some ⟨dpre ++ c :: dpost, ⟨page, page_size, count⟩⟩
    ∧ (∀ (tail : List CourseRec) (d : CourseRec) (x : String),
        d.id = some x → x ≠ "" → commerceOf x = .raise →
        get_courses (.status 200 ⟨pre ++ d :: tail, count⟩) commerceOf modesOf
          page page_size = none) := by
  constructor
  · have hmid : priceCourse commerceOf modesOf c = .ok c :=
      priceCourse_skips_on_non200 _ _ _ hc
    rw [get_courses_ok]
    simp only [List.mapM_append, List.mapM_cons, hpre, hpost, hmid,
      except_bind_ok, except_pure]
  · intro tail d x hid h0 hr
    have hd : priceCourse commerceOf modesOf d = .error () :=
      priceCourse_error_of_commerce_raise _ _ _ _ hid h0 hr
    rw [get_courses_ok]
    simp only [List.mapM_append, List.mapM_cons, hpre, hd,
      except_bind_ok, except_bind_error, except_pure]

theorem C4_witness :
    get_courses
      (.status 200 ⟨[⟨some "course-a", none, none, none⟩,
                     ⟨some "course-b", none, none, none⟩], 5⟩)
      (fun x => if x = "course-a"
          then .status 200 [⟨some "verified", some (.num 10), some "usd"⟩]
          else if x = "course-c" then .raise else .status 404 [])
      (fun _ => .status 404 []) 1 12
      = some ⟨[⟨some "course-a", some 10, some "USD", some "commerce_api"⟩,
               ⟨some "course-b", none, none, none⟩], ⟨1, 12, 5⟩⟩
    ∧ get_courses
      (.status 200 ⟨[⟨some "course-a", none, none, none⟩,
                     ⟨some "course-c", none, none, none⟩], 5⟩)
      (fun x => if x = "course-a"
          then .status 200 [⟨some "verified", some (.num 10), some "usd"⟩]
          else if x = "course-c" then .raise else .status 404 [])
      (fun _ => .status 404 []) 1 12 = none := by
  have hmain := C4_listing_pricing_failures 5 1 12
    (fun x => if x = "course-a"
        then .status 200 [⟨some "verified", some (.num 10), some "usd"⟩]
        else if x = "course-c" then .raise else .status 404 [])
    (fun _ => .status 404 [])
    [⟨some "course-a", none, none, none⟩] []
    [⟨some "course-a", some 10, some "USD", some "commerce_api"⟩] []
    ⟨some "course-b", none, none, none⟩
    rfl rfl
    (by
      intro x hx hne
      injection hx with h
      subst h
      exact ⟨rfl, rfl⟩)
  exact ⟨hmain.1,
    hmain.2 [] ⟨some "course-c", none, none, none⟩ "course-c" rfl
      (by decide) rfl⟩

/-- Claim C4 counterexample: with one listed course, a raising commerce
pricing call makes get_courses return none (the whole listing fails), and
with both pricing sources answering 404 the course is returned with no
price or currency key added rather than carrying price 0 and USD; both
behaviors contradict the claim. -/
theorem C4_counterexample_raise_fails_listing :
    get_courses (.status 200 ⟨[⟨some "course-v1:a", none, none, none⟩], 1⟩)
      (fun _ => .raise) (fun _ => .status 200 []) 1 12 = none
    ∧ get_courses (.status 200 ⟨[⟨some "course-v1:a", none, none, none⟩], 1⟩)
      (fun _ => .status 404 []) (fun _ => .status 404 []) 1 12
      = some ⟨[⟨some "course-v1:a", none, none, none⟩], ⟨1, 12, 1⟩⟩
    ∧ (⟨some "course-v1:a", none, none, none⟩ : CourseRec).price = none := by
  refine ⟨by decide, by decide, rfl⟩

end EskillsStore
